import Mathlib

/-!
# Verification of the super-rust-boy emulator core

Shallow embedding of the memory bus, cartridge, video and audio units of the
super-rust-boy Game Boy emulator, together with proofs about the properties the
specification claims.  Machine bytes are modelled as `Nat` (all stored values
are in `0..256` in practice; bit operations `&&&`, `|||`, `<<<` act exactly as
on the Rust integers for these ranges).  Fixed byte arrays are modelled as
total functions `Nat → Nat` (the code never indexes them out of bounds on the
paths studied here).

Source files: src/mem/mod.rs, src/mem/cartridge/mod.rs, src/video/mod.rs,
src/video/mem/drawing.rs, src/audio/square1.rs.
-/

/-- An 8-bit black/white palette register.
Modelled from the spec: `palette.rs` is not in the sources; the spec describes
"one 8-bit BG palette mapping 4 shades" as a plain register (§3). -/
structure BWPalette where
  data : Nat

def BWPalette.new : BWPalette := ⟨0⟩

def BWPalette.read (p : BWPalette) : Nat := p.data

def BWPalette.write (p : BWPalette) (v : Nat) : BWPalette := { p with data := v }

/-- Joypad register.
Modelled from the spec: `joypad.rs` is not in the sources; the spec says
register 0xFF00 "uses two select bits to expose either the directional or
action nibble" (§6).  Host keys are modelled as unpressed (nibble 0xF). -/
structure Joypad where
  select : Nat

def Joypad.new : Joypad := ⟨0⟩

def Joypad.read (j : Joypad) : Nat := (j.select &&& 0x30) ||| 0xF

def Joypad.write (j : Joypad) (v : Nat) : Joypad := { j with select := v }

/-- Video device state, from `GBVideo` in src/video/mod.rs.  The glium
handles (`tex_cache`, `display`, `events_loop`, `program`) carry no
byte-addressable state and are omitted. -/
structure GBVideo where
  display_enable   : Bool
  window_offset    : Nat
  window_enable    : Bool
  bg_offset        : Nat
  bg_enable        : Bool
  tile_data_select : Bool
  sprite_size      : Bool
  sprite_enable    : Bool
  lcd_status       : Nat
  scroll_y         : Nat
  scroll_x         : Nat
  lcdc_y           : Nat
  ly_compare       : Nat
  window_y         : Nat
  window_x         : Nat
  bg_palette       : BWPalette
  obj_palette_0    : BWPalette
  obj_palette_1    : BWPalette
  joypad           : Joypad
  raw_tile_mem     : Nat → Nat
  tile_map_mem     : Nat → Nat
  sprite_mem       : Nat → Nat

/-- Source `GBVideo::new` (src/video/mod.rs lines 234-266). -/
def GBVideo.new : GBVideo where
  display_enable   := true
  window_offset    := 0x0
  window_enable    := false
  bg_offset        := 0x0
  bg_enable        := true
  tile_data_select := true
  sprite_size      := false
  sprite_enable    := false
  lcd_status       := 0
  scroll_y         := 0
  scroll_x         := 0
  lcdc_y           := 0
  ly_compare       := 0
  window_y         := 0
  window_x         := 0
  bg_palette       := BWPalette.new
  obj_palette_0    := BWPalette.new
  obj_palette_1    := BWPalette.new
  joypad           := Joypad.new
  raw_tile_mem     := fun _ => 0
  tile_map_mem     := fun _ => 0
  sprite_mem       := fun _ => 0

/-- Source `GBVideo::lcd_control_write` (src/video/mod.rs lines 269-278). -/
def GBVideo.lcd_control_write (s : GBVideo) (val : Nat) : GBVideo :=
  { s with
    display_enable   := val &&& 0x80 = 0x80
    window_offset    := if val &&& 0x40 = 0x40 then 0x400 else 0x0
    window_enable    := val &&& 0x20 = 0x20
    tile_data_select := val &&& 0x10 = 0x10
    bg_offset        := if val &&& 0x8 = 0x8 then 0x400 else 0x0
    sprite_size      := val &&& 0x4 = 0x4
    sprite_enable    := val &&& 0x2 = 0x2
    bg_enable        := val &&& 0x1 = 0x1 }

/-- Source `GBVideo::lcd_control_read` (src/video/mod.rs lines 280-290). -/
def GBVideo.lcd_control_read (s : GBVideo) : Nat :=
  let val_7 := if s.display_enable then 0x80 else 0
  let val_6 := if s.window_offset = 0x400 then 0x40 else 0
  let val_5 := if s.window_enable then 0x20 else 0
  let val_4 := if s.tile_data_select then 0x10 else 0
  let val_3 := if s.bg_offset = 0x400 then 0x8 else 0
  let val_2 := if s.sprite_size then 0x4 else 0
  let val_1 := if s.sprite_enable then 0x2 else 0
  let val_0 := if s.bg_enable then 0x1 else 0
  val_7 ||| val_6 ||| val_5 ||| val_4 ||| val_3 ||| val_2 ||| val_1 ||| val_0

/-- Source `GBVideo::write_raw_tile` (src/video/mod.rs lines 293-299); the texture
cache invalidation has no byte-level effect and is omitted. -/
def GBVideo.write_raw_tile (s : GBVideo) (loc val : Nat) : GBVideo :=
  { s with raw_tile_mem := Function.update s.raw_tile_mem (loc - 0x8000) val }

/-- Source `<GBVideo as MemDevice>::read` (src/video/mod.rs lines 82-103). -/
def GBVideo.read (s : GBVideo) (loc : Nat) : Nat :=
  if 0x8000 ≤ loc ∧ loc ≤ 0x97FF then s.raw_tile_mem (loc - 0x8000)
  else if 0x9800 ≤ loc ∧ loc ≤ 0x9FFF then s.tile_map_mem (loc - 0x9800)
  else if 0xFE00 ≤ loc ∧ loc ≤ 0xFE9F then s.sprite_mem (loc - 0xFE00)
  else if loc = 0xFF00 then s.joypad.read
  else if loc = 0xFF40 then s.lcd_control_read
  else if loc = 0xFF41 then s.lcd_status
  else if loc = 0xFF42 then s.scroll_y
  else if loc = 0xFF43 then s.scroll_x
  else if loc = 0xFF44 then s.lcdc_y
  else if loc = 0xFF45 then s.ly_compare
  else if loc = 0xFF47 then s.bg_palette.read
  else if loc = 0xFF48 then s.obj_palette_0.read
  else if loc = 0xFF49 then s.obj_palette_1.read
  else if loc = 0xFF4A then s.window_y
  else if loc = 0xFF4B then s.window_x
  else 0

/-- Source `<GBVideo as MemDevice>::write` (src/video/mod.rs lines 105-126). -/
def GBVideo.write (s : GBVideo) (loc val : Nat) : GBVideo :=
  if 0x8000 ≤ loc ∧ loc ≤ 0x97FF then s.write_raw_tile loc val
  else if 0x9800 ≤ loc ∧ loc ≤ 0x9FFF then
    { s with tile_map_mem := Function.update s.tile_map_mem (loc - 0x9800) val }
  else if 0xFE00 ≤ loc ∧ loc ≤ 0xFE9F then
    { s with sprite_mem := Function.update s.sprite_mem (loc - 0xFE00) val }
  else if loc = 0xFF00 then { s with joypad := s.joypad.write val }
  else if loc = 0xFF40 then s.lcd_control_write val
  else if loc = 0xFF41 then { s with lcd_status := val }
  else if loc = 0xFF42 then { s with scroll_y := val }
  else if loc = 0xFF43 then { s with scroll_x := val }
  else if loc = 0xFF44 then { s with lcdc_y := 0 }
  else if loc = 0xFF45 then { s with ly_compare := val }
  else if loc = 0xFF47 then { s with bg_palette := s.bg_palette.write val }
  else if loc = 0xFF48 then { s with obj_palette_0 := s.obj_palette_0.write val }
  else if loc = 0xFF49 then { s with obj_palette_1 := s.obj_palette_1.write val }
  else if loc = 0xFF4A then { s with window_y := val }
  else if loc = 0xFF4B then { s with window_x := val }
  else s

/-- MBC1 bank registers.
Modelled from the spec: `mb1.rs` is not in the sources.  Spec §3/§4.2: MB1 has
a "5-bit low register and 2-bit high register; a mode bit selects whether the
high register extends ROM bank (up to 7 bits) or selects RAM bank.  Writing
zero to the low register yields 1 instead". -/
structure MB1 where
  lower : Nat
  upper : Nat
  mode  : Bool

/-- Modelled from the spec: fresh MB1 selects ROM bank 1 in ROM mode. -/
def MB1.new : MB1 := ⟨1, 0, false⟩

/-- Modelled from the spec: "0x2000–0x3FFF sets the 5-bit low register (0 → 1)". -/
def MB1.set_lower (m : MB1) (val : Nat) : MB1 :=
  { m with lower := if val &&& 0x1F = 0 then 1 else val &&& 0x1F }

/-- Modelled from the spec: "0x4000–0x5FFF sets the 2-bit high register". -/
def MB1.set_upper (m : MB1) (val : Nat) : MB1 :=
  { m with upper := val &&& 0x3 }

/-- Modelled from the spec: "0x6000–0x7FFF selects mode (0: high register
extends ROM; 1: selects RAM bank)". -/
def MB1.mem_type_select (m : MB1) (val : Nat) : MB1 :=
  { m with mode := val &&& 0x1 = 0x1 }

/-- Modelled from the spec: in mode 0 the high register extends the ROM bank. -/
def MB1.get_rom_bank (m : MB1) : Nat :=
  if m.mode then m.lower else (m.upper <<< 5) ||| m.lower

/-- Modelled from the spec: in mode 1 the high register selects the RAM bank. -/
def MB1.get_ram_bank (m : MB1) : Nat :=
  if m.mode then m.upper else 0

/-- MBC3 RTC/RAM select state.
Modelled from the spec: `mb3.rs` is not in the sources.  Spec §3/§4.2: MB3 has
a "2-bit RAM bank or RTC register select (0x08–0x0C selects one of five RTC
registers); latch-clock command ... freezes RTC registers for coherent reads".
Wall-clock advance of the RTC registers is outside the machine model. -/
structure MB3 where
  ram_select  : Bool
  rtc_select  : Nat
  rtc         : Nat → Nat
  rtc_latched : Nat → Nat

def MB3.new : MB3 := ⟨true, 0x8, fun _ => 0, fun _ => 0⟩

def MB3.select_rtc (m : MB3) (val : Nat) : MB3 :=
  { m with ram_select := false, rtc_select := val }

def MB3.latch_clock (m : MB3) : MB3 :=
  { m with rtc_latched := m.rtc }

def MB3.get_rtc_reg (m : MB3) : Nat := m.rtc_latched m.rtc_select

def MB3.set_rtc_reg (m : MB3) (val : Nat) : MB3 :=
  { m with rtc := Function.update m.rtc m.rtc_select val }

/-- Source `enum MBC` (src/mem/cartridge/mod.rs lines 18-25). -/
inductive MBC where
  | mbc0 : MBC
  | mbc1 : MB1 → MBC
  | mbc2 : MBC
  | mbc3 : MB3 → MBC
  | mbc4 : Nat → MBC
  | mbc5 : Nat → MBC

/-- Source `enum Swap` (src/mem/cartridge/mod.rs lines 28-33). -/
inductive Swap where
  | rom  : Nat → Swap
  | ram  : Nat → Swap
  | both : Nat → Nat → Swap
  | none : Swap

/-- Source `struct Cartridge` (src/mem/cartridge/mod.rs lines 35-45).  The paged ROM
file is modelled as the total byte image `rom`; `rom_bank_n` caches the
currently swapped-in 16 KiB page exactly as the Rust field does. -/
structure Cartridge where
  rom        : Nat → Nat
  rom_bank_0 : Nat → Nat
  rom_bank_n : Nat → Nat
  ram        : Nat → Nat
  ram_size   : Nat
  mem_bank   : MBC
  ram_enable : Bool
  ram_offset : Nat
  battery    : Bool

/-- Source `Cartridge::swap_rom_bank` (lines 158-170): seek to `bank * 0x4000` in the
ROM image and read 16 KiB into bank N. -/
def Cartridge.swap_rom_bank (c : Cartridge) (bank : Nat) : Cartridge :=
  { c with rom_bank_n := fun i => c.rom (bank * 0x4000 + i) }

/-- Source `Cartridge::swap_ram_bank` (lines 172-175). -/
def Cartridge.swap_ram_bank (c : Cartridge) (bank : Nat) : Cartridge :=
  { c with ram_offset := bank * 0x2000 }

/-- Source `Cartridge::new` (lines 116-156): header byte 0x147 picks the MBC, 0x149
the RAM size; bank 1 is swapped in. -/
def Cartridge.new (rom : Nat → Nat) : Cartridge :=
  let bank_type :=
    if 0x1 ≤ rom 0x147 ∧ rom 0x147 ≤ 0x3 then MBC.mbc1 MB1.new
    else if 0x5 ≤ rom 0x147 ∧ rom 0x147 ≤ 0x6 then MBC.mbc2
    else if 0xF ≤ rom 0x147 ∧ rom 0x147 ≤ 0x13 then MBC.mbc3 MB3.new
    else if 0x15 ≤ rom 0x147 ∧ rom 0x147 ≤ 0x17 then MBC.mbc4 0
    else if 0x19 ≤ rom 0x147 ∧ rom 0x147 ≤ 0x1E then MBC.mbc5 0
    else MBC.mbc0
  let ram_size :=
    match bank_type, rom 0x149 with
    | MBC.mbc2, _ => 0x200
    | _, 0x1      => 0x800
    | _, 0x2      => 0x2000
    | _, 0x3      => 0x8000
    | _, _        => 0
  let ret : Cartridge :=
    { rom        := rom
      rom_bank_0 := fun i => rom i
      rom_bank_n := fun _ => 0
      ram        := fun _ => 0
      ram_size   := ram_size
      mem_bank   := bank_type
      ram_enable := false
      ram_offset := 0
      battery    := false }
  ret.swap_rom_bank 1

/-- Source `Cartridge::read_ram` (lines 178-189). -/
def Cartridge.read_ram (c : Cartridge) (loc : Nat) : Nat :=
  if c.ram_enable then
    match c.mem_bank with
    | MBC.mbc3 mb => if mb.ram_select then c.ram (c.ram_offset + loc) else mb.get_rtc_reg
    | _ => c.ram (c.ram_offset + loc)
  else 0

/-- Source `Cartridge::write_ram` (lines 192-201). -/
def Cartridge.write_ram (c : Cartridge) (loc val : Nat) : Cartridge :=
  if c.ram_enable then
    match c.mem_bank with
    | MBC.mbc2 => { c with ram := Function.update c.ram (c.ram_offset + loc) (val &&& 0xF) }
    | MBC.mbc3 mb =>
      if mb.ram_select then { c with ram := Function.update c.ram (c.ram_offset + loc) val }
      else { c with mem_bank := MBC.mbc3 (mb.set_rtc_reg val) }
    | _ => { c with ram := Function.update c.ram (c.ram_offset + loc) val }
  else c

/-- Source `<Cartridge as MemDevice>::read` (lines 48-54). -/
def Cartridge.read (c : Cartridge) (loc : Nat) : Nat :=
  if loc ≤ 0x3FFF then c.rom_bank_0 loc
  else if 0x4000 ≤ loc ∧ loc ≤ 0x7FFF then c.rom_bank_n (loc - 0x4000)
  else c.read_ram (loc - 0xA000)

/-- Helper applying a `Swap` instruction (the `match swap_instr` block of
`Cartridge::write`, lines 103-111). -/
def Cartridge.apply_swap (c : Cartridge) : Swap → Cartridge
  | Swap.both rom ram => (c.swap_rom_bank rom).swap_ram_bank ram
  | Swap.rom rom => c.swap_rom_bank rom
  | Swap.ram ram => c.swap_ram_bank ram
  | Swap.none => c

/-- Source `<Cartridge as MemDevice>::write` (lines 56-113): 0xA000-0xBFFF goes to
cartridge RAM, everything else is an MBC command. -/
def Cartridge.write (c : Cartridge) (loc val : Nat) : Cartridge :=
  if 0xA000 ≤ loc ∧ loc < 0xC000 then c.write_ram (loc - 0xA000) val
  else
    match c.mem_bank with
    | MBC.mbc1 mb =>
      let old_rom_bank := mb.get_rom_bank
      let old_ram_bank := mb.get_ram_bank
      let c1 : Cartridge :=
        if loc ≤ 0x1FFF then { c with ram_enable := val &&& 0xA = 0xA }
        else if 0x2000 ≤ loc ∧ loc ≤ 0x3FFF then { c with mem_bank := MBC.mbc1 (mb.set_lower val) }
        else if 0x4000 ≤ loc ∧ loc ≤ 0x5FFF then { c with mem_bank := MBC.mbc1 (mb.set_upper val) }
        else { c with mem_bank := MBC.mbc1 (mb.mem_type_select val) }
      let mb1 := match c1.mem_bank with
        | MBC.mbc1 m => m
        | _ => mb
      let new_rom_bank := mb1.get_rom_bank
      let new_ram_bank := mb1.get_ram_bank
      let swap_instr :=
        if new_rom_bank ≠ old_rom_bank ∧ new_ram_bank ≠ old_ram_bank then
          Swap.both new_rom_bank new_ram_bank
        else if new_rom_bank ≠ old_rom_bank then Swap.rom new_rom_bank
        else if new_ram_bank ≠ old_ram_bank then Swap.ram new_ram_bank
        else Swap.none
      c1.apply_swap swap_instr
    | MBC.mbc2 =>
      if loc ≤ 0x1FFF then { c with ram_enable := loc &&& 0x10 = 0 }
      else if 0x2000 ≤ loc ∧ loc ≤ 0x3FFF then c.apply_swap (Swap.rom (val &&& 0xF))
      else c
    | MBC.mbc3 mb =>
      if loc ≤ 0x1FFF then { c with ram_enable := val &&& 0xF = 0xA }
      else if 0x2000 ≤ loc ∧ loc ≤ 0x3FFF then
        if val = 0 then c.apply_swap (Swap.rom 1) else c.apply_swap (Swap.rom val)
      else if 0x4000 ≤ loc ∧ loc ≤ 0x5FFF then
        if val ≤ 3 then c.apply_swap (Swap.ram val)
        else if 8 ≤ val ∧ val ≤ 0xC then { c with mem_bank := MBC.mbc3 (mb.select_rtc val) }
        else c
      else if 0x6000 ≤ loc ∧ loc ≤ 0x7FFF ∧ val = 1 then
        { c with mem_bank := MBC.mbc3 mb.latch_clock }
      else c
    | _ => c

/-- Audio device register file.
Modelled from the spec: `audio/mod.rs` is not in the sources; the spec
describes a "per-channel register file (NRx0–NRx4)" addressed at
0xFF10-0xFF3F (§3, §4.1).  The sample generators are modelled separately
(`Square1Gen` below); the channel dynamics do not feed back into the bytes the
bus reads on the paths studied here. -/
structure AudioDevice where
  regs : Nat → Nat

def AudioDevice.new : AudioDevice := ⟨fun _ => 0⟩

def AudioDevice.read (a : AudioDevice) (loc : Nat) : Nat := a.regs loc

def AudioDevice.write (a : AudioDevice) (loc val : Nat) : AudioDevice :=
  { a with regs := Function.update a.regs loc val }

/-- Timer registers.
Modelled from the spec: `timer.rs` is not in the sources; spec §4.3 gives
"registers at 0xFF04 (DIV), 0xFF05 (TIMA), 0xFF06 (TMA), 0xFF07 (TAC)" with
DIV "reset to 0 on any write". -/
structure Timer where
  divider : Nat
  tima    : Nat
  tma     : Nat
  tac     : Nat

def Timer.new : Timer := ⟨0, 0, 0, 0⟩

def Timer.read (t : Timer) (loc : Nat) : Nat :=
  if loc = 0xFF04 then t.divider
  else if loc = 0xFF05 then t.tima
  else if loc = 0xFF06 then t.tma
  else if loc = 0xFF07 then t.tac
  else 0

def Timer.write (t : Timer) (loc val : Nat) : Timer :=
  if loc = 0xFF04 then { t with divider := 0 }
  else if loc = 0xFF05 then { t with tima := val }
  else if loc = 0xFF06 then { t with tma := val }
  else if loc = 0xFF07 then { t with tac := val }
  else t

/-- Source `struct MemBus` (src/mem/mod.rs lines 29-44). -/
structure MemBus where
  cart             : Cartridge
  ram_bank         : Nat → Nat
  ram              : Nat → Nat
  high_ram         : Nat → Nat
  interrupt_flag   : Nat
  interrupt_enable : Nat
  video_device     : GBVideo
  audio_device     : AudioDevice
  timer            : Timer

/-- Source `MemBus::new` (src/mem/mod.rs lines 47-64), the ROM file given as a byte
image. -/
def MemBus.new (rom : Nat → Nat) : MemBus where
  cart             := Cartridge.new rom
  ram_bank         := fun _ => 0
  ram              := fun _ => 0
  high_ram         := fun _ => 0
  interrupt_flag   := 0
  interrupt_enable := 0
  video_device     := GBVideo.new
  audio_device     := AudioDevice.new
  timer            := Timer.new

/-- Source `MemBus::get_interrupts` (src/mem/mod.rs lines 86-88): pending AND
enabled.  `InterruptFlags` is byte-backed; the value is its raw bits. -/
def MemBus.get_interrupts (s : MemBus) : Nat :=
  s.interrupt_flag &&& s.interrupt_enable

/-- Source `<MemBus as MemDevice>::read` (src/mem/mod.rs lines 111-128). -/
def MemBus.read (s : MemBus) (loc : Nat) : Nat :=
  if loc ≤ 0x7FFF then s.cart.read loc
  else if 0x8000 ≤ loc ∧ loc ≤ 0x9FFF then s.video_device.read loc
  else if 0xA000 ≤ loc ∧ loc ≤ 0xBFFF then s.cart.read loc
  else if 0xC000 ≤ loc ∧ loc ≤ 0xDFFF then s.ram (loc - 0xC000)
  else if 0xE000 ≤ loc ∧ loc ≤ 0xFDFF then s.ram (loc - 0xE000)
  else if 0xFE00 ≤ loc ∧ loc ≤ 0xFE9F then s.video_device.read loc
  else if loc = 0xFF00 then s.video_device.read loc
  else if 0xFF04 ≤ loc ∧ loc ≤ 0xFF07 then s.timer.read loc
  else if loc = 0xFF0F then s.interrupt_flag
  else if 0xFF10 ≤ loc ∧ loc ≤ 0xFF3F then s.audio_device.read loc
  else if 0xFF40 ≤ loc ∧ loc ≤ 0xFF4B then s.video_device.read loc
  else if 0xFF80 ≤ loc ∧ loc ≤ 0xFFFE then s.high_ram (loc - 0xFF80)
  else if loc = 0xFFFF then s.interrupt_enable
  else s.ram 0

/-- Source `MemBus::dma` (src/mem/mod.rs lines 99-107): copy 160 bytes read through
the bus into OAM. -/
def MemBus.dma (s : MemBus) (val : Nat) : MemBus :=
  let hi_byte := val <<< 8
  (List.range 0xA0).foldl
    (fun st lo_byte =>
      let src_addr := hi_byte ||| lo_byte
      let dest_addr := 0xFE00 ||| lo_byte
      let byte := st.read src_addr
      { st with video_device := st.video_device.write dest_addr byte })
    s

/-- Source `<MemBus as MemDevice>::write` (src/mem/mod.rs lines 130-149).
`InterruptFlags::from_bits_truncate` keeps the five defined bits, i.e.
masks with 0x1F. -/
def MemBus.write (s : MemBus) (loc val : Nat) : MemBus :=
  if loc ≤ 0x7FFF then { s with cart := s.cart.write loc val }
  else if 0x8000 ≤ loc ∧ loc ≤ 0x9FFF then { s with video_device := s.video_device.write loc val }
  else if 0xA000 ≤ loc ∧ loc ≤ 0xBFFF then { s with cart := s.cart.write loc val }
  else if 0xC000 ≤ loc ∧ loc ≤ 0xDFFF then { s with ram := Function.update s.ram (loc - 0xC000) val }
  else if 0xE000 ≤ loc ∧ loc ≤ 0xFDFF then { s with ram := Function.update s.ram (loc - 0xE000) val }
  else if 0xFE00 ≤ loc ∧ loc ≤ 0xFE9F then { s with video_device := s.video_device.write loc val }
  else if loc = 0xFF00 then { s with video_device := s.video_device.write loc val }
  else if 0xFF04 ≤ loc ∧ loc ≤ 0xFF07 then { s with timer := s.timer.write loc val }
  else if loc = 0xFF0F then { s with interrupt_flag := val &&& 0x1F }
  else if 0xFF10 ≤ loc ∧ loc ≤ 0xFF3F then { s with audio_device := s.audio_device.write loc val }
  else if 0xFF40 ≤ loc ∧ loc ≤ 0xFF45 then { s with video_device := s.video_device.write loc val }
  else if loc = 0xFF46 then s.dma val
  else if 0xFF47 ≤ loc ∧ loc ≤ 0xFF4B then { s with video_device := s.video_device.write loc val }
  else if 0xFF80 ≤ loc ∧ loc ≤ 0xFFFE then { s with high_ram := Function.update s.high_ram (loc - 0xFF80) val }
  else if loc = 0xFFFF then { s with interrupt_enable := val &&& 0x1F }
  else s

/-- Apply a sequence of bus writes in order. -/
def MemBus.writeSeq (s : MemBus) (ws : List (Nat × Nat)) : MemBus :=
  ws.foldl (fun st w => st.write w.1 w.2) s

/-- The value of the last write in `ws` whose address is `a`, if any. -/
def lastWrite (a : Nat) : List (Nat × Nat) → Option Nat
  | [] => Option.none
  | w :: ws => (lastWrite a ws).orElse (fun _ => if w.1 = a then Option.some w.2 else Option.none)

/-- Source `AmpDirection` (audio/common.rs is not in the sources; the variants are
used by src/audio/square1.rs for both sweep units). -/
inductive AmpDirection where
  | increase : AmpDirection
  | decrease : AmpDirection
  | nodir    : AmpDirection

/-- Modelled from the spec: duty constants of audio/common.rs.  NRx1[7:6]
selects the duty ∈ {12.5%, 25%, 50%, 75%} (§4.5); `duty_reg_amt` keeps the
masked bits 7:6, so the four values are 0x00, 0x40, 0x80, 0xC0. -/
def DUTY_12_5 : Nat := 0x00

def DUTY_25 : Nat := 0x40

def DUTY_50 : Nat := 0x80

def DUTY_75 : Nat := 0xC0

/-- Modelled from the spec: `frequency = max_rate / (freq_mod - freq_n)`
(§4.5) with the Game Boy square-channel constants. -/
def FREQ_MAX : Nat := 131072

def FREQ_MOD : Nat := 2048

/-- Source `struct Square1Regs` (src/audio/square1.rs lines 5-11): the NR10-NR14
register image. -/
structure Square1Regs where
  sweep_reg        : Nat
  duty_length_reg  : Nat
  vol_envelope_reg : Nat
  freq_lo_reg      : Nat
  freq_hi_reg      : Nat

/-- Source `Square1Regs::new` (src/audio/square1.rs lines 14-22). -/
def Square1Regs.new : Square1Regs := ⟨0, 0, 0, 0, 0⟩

/-- Source `struct Square1Gen` (src/audio/square1.rs lines 70-91). -/
structure Square1Gen where
  sample_rate     : Nat
  frequency       : Nat
  freq_sweep_step : Nat
  freq_counter    : Nat
  freq_sweep_dir  : AmpDirection
  freq_shift_amt  : Nat
  phase           : Nat
  phase_len       : Nat
  duty_len        : Nat
  duty_reg_amt    : Nat
  length          : Option Nat
  amplitude       : Nat
  amp_sweep_step  : Nat
  amp_counter     : Nat
  amp_sweep_dir   : AmpDirection

/-- Source `Square1Gen::new` (src/audio/square1.rs lines 94-117). -/
def Square1Gen.new (sample_rate : Nat) : Square1Gen where
  sample_rate     := sample_rate
  frequency       := 0
  freq_sweep_step := 0
  freq_counter    := 0
  freq_sweep_dir  := AmpDirection.nodir
  freq_shift_amt  := 0
  phase           := 0
  phase_len       := 1
  duty_len        := 0
  duty_reg_amt    := 0
  length          := Option.none
  amplitude       := 0
  amp_sweep_step  := 0
  amp_counter     := 0
  amp_sweep_dir   := AmpDirection.nodir

/-- Source `Square1Gen::calc_freq` (src/audio/square1.rs lines 119-128). -/
def Square1Gen.calc_freq (s : Square1Gen) : Square1Gen :=
  let phase_len := s.sample_rate / s.frequency
  let duty_len :=
    if s.duty_reg_amt = DUTY_12_5 then phase_len / 8
    else if s.duty_reg_amt = DUTY_25 then phase_len / 4
    else if s.duty_reg_amt = DUTY_50 then phase_len / 2
    else if s.duty_reg_amt = DUTY_75 then (phase_len / 4) * 3
    else phase_len / 2
  { s with phase_len := phase_len, duty_len := duty_len }

/-- Source `Square1Gen::init_signal` (src/audio/square1.rs lines 132-168): re-init
the generator from the register image on trigger. -/
def Square1Gen.init_signal (s : Square1Gen) (regs : Square1Regs) : Square1Gen :=
  let freq_n := ((regs.freq_hi_reg &&& 0x7) <<< 8) ||| regs.freq_lo_reg
  let sweep_time := (regs.sweep_reg &&& 0x70) >>> 4
  let freq_sweep_step := (s.sample_rate * sweep_time) / 128
  let s1 : Square1Gen :=
    { s with
      frequency       := FREQ_MAX / (FREQ_MOD - freq_n)
      freq_sweep_step := freq_sweep_step
      freq_counter    := 0
      freq_sweep_dir  :=
        if freq_sweep_step = 0 then AmpDirection.nodir
        else if regs.vol_envelope_reg &&& 0x8 ≠ 0 then AmpDirection.decrease
        else AmpDirection.increase
      freq_shift_amt  := regs.sweep_reg &&& 0x7
      duty_reg_amt    := regs.duty_length_reg &&& 0xC0
      phase           := 0 }
  let s2 := s1.calc_freq
  { s2 with
    length :=
      if regs.freq_hi_reg &&& 0x40 ≠ 0 then
        Option.some ((s.sample_rate * (64 - (regs.duty_length_reg &&& 0x3F))) / 256)
      else Option.none
    amplitude      := (regs.vol_envelope_reg &&& 0xF0) >>> 4
    amp_sweep_step := (s.sample_rate * (regs.vol_envelope_reg &&& 0x7)) / 64
    amp_counter    := 0
    amp_sweep_dir  :=
      if (s.sample_rate * (regs.vol_envelope_reg &&& 0x7)) / 64 = 0 then AmpDirection.nodir
      else if regs.vol_envelope_reg &&& 0x8 ≠ 0 then AmpDirection.increase
      else AmpDirection.decrease }

/-- The sample emitted at the top of each iteration of
`Square1Gen::generate_signal` (src/audio/square1.rs lines 176-180). -/
def Square1Gen.sample_out (s : Square1Gen) : Nat :=
  if 0 < s.length.getD 1 ∧ s.phase < s.duty_len then s.amplitude else 0

/-- Phase advance (src/audio/square1.rs line 181). -/
def Square1Gen.phase_update (s : Square1Gen) : Square1Gen :=
  { s with phase := (s.phase + 1) % s.phase_len }

/-- The "Freq sweep" section (src/audio/square1.rs lines 183-199): the
counter is incremented, and on reaching the step the frequency moves by
`frequency >> shift` and the phase lengths are recomputed. -/
def Square1Gen.freq_sweep_update (s : Square1Gen) : Square1Gen :=
  if s.freq_counter + 1 ≥ s.freq_sweep_step then
    let freq_modifier := s.frequency >>> s.freq_shift_amt
    let s' : Square1Gen :=
      match s.freq_sweep_dir with
      | AmpDirection.increase => Square1Gen.calc_freq { s with frequency := s.frequency + freq_modifier }
      | AmpDirection.decrease => Square1Gen.calc_freq { s with frequency := s.frequency - freq_modifier }
      | AmpDirection.nodir => s
    { s' with freq_counter := 0 }
  else { s with freq_counter := s.freq_counter + 1 }

/-- The length decrement (src/audio/square1.rs lines 201-204). -/
def Square1Gen.length_update (s : Square1Gen) : Square1Gen :=
  match s.length with
  | Option.some n => if 0 < n then { s with length := Option.some (n - 1) } else s
  | Option.none => s

/-- The "Amp sweep" section (src/audio/square1.rs lines 206-223): envelope
counter advance and amplitude adjustment clamped to [0, 15]. -/
def Square1Gen.amp_sweep_update (s : Square1Gen) : Square1Gen :=
  if s.amp_counter + 1 ≥ s.amp_sweep_step then
    let s' : Square1Gen :=
      match s.amp_sweep_dir with
      | AmpDirection.increase =>
        if s.amplitude < 15 then { s with amplitude := s.amplitude + 1 } else s
      | AmpDirection.decrease =>
        if 0 < s.amplitude then { s with amplitude := s.amplitude - 1 } else s
      | AmpDirection.nodir => s
    { s' with amp_counter := 0 }
  else { s with amp_counter := s.amp_counter + 1 }

/-- One iteration of the sample loop of `Square1Gen::generate_signal`
(src/audio/square1.rs lines 174-224): the emitted sample together with the
state handed to the next iteration, as the composition of the loop body's
four sections in source order.  The `start`/`end` buffer slicing only picks
which indices of a frame's buffer receive the samples; the sample sequence
itself is this recurrence. -/
def Square1Gen.step (s : Square1Gen) : Nat × Square1Gen :=
  (s.sample_out, s.phase_update.freq_sweep_update.length_update.amp_sweep_update)

/-- Generator state after `n` samples have been produced from state `s`. -/
def Square1Gen.stateAt (s : Square1Gen) : Nat → Square1Gen
  | 0 => s
  | n + 1 => (Square1Gen.stateAt s n).step.2

/-- The `n`-th sample (0-based) produced from state `s`. -/
def Square1Gen.sampleAt (s : Square1Gen) (n : Nat) : Nat :=
  (s.stateAt n).step.1

/-- RGB colour triple (`Colour` in video/types.rs, not in the sources; spec
§6: framebuffer pixels are RGBA8). -/
structure Colour where
  r : Nat
  g : Nat
  b : Nat

/-- Source `Colour::zero` used by `background_pixel` when the background is
disabled. -/
def Colour.zero : Colour := ⟨0, 0, 0⟩

/-- Source `enum SpritePixel` (src/video/mem/drawing.rs lines 150-154). -/
inductive SpritePixel where
  | hi : Colour → SpritePixel
  | lo : Colour → SpritePixel
  | nosprite : SpritePixel

/-- Source `enum BGPixel` (src/video/mem/drawing.rs lines 156-159). -/
inductive BGPixel where
  | nonZero : Colour → BGPixel
  | zero : Colour → BGPixel

/-- The slice of `VideoMem` state that the scanline compositor of
src/video/mem/drawing.rs consults.  The struct itself lives in
video/mem/mod.rs, which is not in the sources; its accessors are modelled
from the spec (§3, §4.4): `window_enable_flag` backs `get_window_enable()`,
`bg_priority_flag` backs `get_background_priority()`, `window_map`/`bg_map`
back `ref_window()`/`ref_background()` (row-major texel caches) and
`bg_colour` backs `get_bg_colour`. -/
structure VideoMem where
  window_enable_flag : Bool
  bg_priority_flag   : Bool
  window_x           : Nat
  window_y           : Nat
  scroll_x           : Nat
  scroll_y           : Nat
  window_map         : Nat → Nat → Nat
  bg_map             : Nat → Nat → Nat
  bg_colour          : Nat → Colour

/-- Modelled from the spec: the Video I/O write for register WX (0xFF4B).
The register file of video/mem/mod.rs is not in the sources; spec §4.4
prescribes the window trigger "x ≥ WX-7", and `window_pixel`
(drawing.rs line 89) tests `x >= self.window_x`, so the stored field is
WX − 7 (clamped at zero for WX < 7). -/
def VideoMem.write_window_x (m : VideoMem) (wx : Nat) : VideoMem :=
  { m with window_x := wx - 7 }

/-- Modelled from the spec: the Video I/O write for register WY (0xFF4A). -/
def VideoMem.write_window_y (m : VideoMem) (wy : Nat) : VideoMem :=
  { m with window_y := wy }

/-- Source `VideoMem::window_pixel` (src/video/mem/drawing.rs lines 87-101). -/
def VideoMem.window_pixel (m : VideoMem) (x y : Nat) : Option BGPixel :=
  if m.window_enable_flag ∧ m.window_x ≤ x ∧ m.window_y ≤ y then
    let win_x := x - m.window_x
    let win_y := y - m.window_y
    let win_texel := m.window_map win_y win_x
    Option.some
      (if win_texel = 0 then BGPixel.zero (m.bg_colour win_texel)
       else BGPixel.nonZero (m.bg_colour win_texel))
  else Option.none

/-- Source `VideoMem::background_pixel` (src/video/mem/drawing.rs lines 103-117);
`wrapping_add` on u8 is addition mod 256. -/
def VideoMem.background_pixel (m : VideoMem) (x y : Nat) : BGPixel :=
  if m.bg_priority_flag then
    let bg_x := (m.scroll_x + x) % 256
    let bg_y := (m.scroll_y + y) % 256
    let bg_texel := m.bg_map bg_y bg_x
    if bg_texel = 0 then BGPixel.zero (m.bg_colour bg_texel)
    else BGPixel.nonZero (m.bg_colour bg_texel)
  else BGPixel.zero Colour.zero

/-- The per-pixel composition of `VideoMem::draw_line_gb`
(src/video/mem/drawing.rs lines 25-53), with the sprite-scan result
(`sprite_pixel`) passed in. -/
def VideoMem.compose_pixel (m : VideoMem) (sp : SpritePixel) (x y : Nat) : Colour :=
  match sp with
  | SpritePixel.hi c => c
  | SpritePixel.lo c =>
    match m.window_pixel x y with
    | Option.some (BGPixel.zero _) => c
    | Option.some (BGPixel.nonZero win) => win
    | Option.none =>
      match m.background_pixel x y with
      | BGPixel.zero _ => c
      | BGPixel.nonZero bg => bg
  | SpritePixel.nosprite =>
    match m.window_pixel x y with
    | Option.some (BGPixel.zero win) => win
    | Option.some (BGPixel.nonZero win) => win
    | Option.none =>
      match m.background_pixel x y with
      | BGPixel.zero bg => bg
      | BGPixel.nonZero bg => bg

/-- The colour a `BGPixel` carries. -/
def BGPixel.colour : BGPixel → Colour
  | BGPixel.zero c => c
  | BGPixel.nonZero c => c

/-! ## Helper lemmas -/

theorem mul_256_lor_eq_add (x i : Nat) (h : i < 256) :
    (256 * x) ||| i = 256 * x + i := by
  have h8 : i < 2 ^ 8 := by norm_num; exact h
  have hshift : (256 : Nat) * x = x <<< 8 := by
    have h2 : (2 : Nat) ^ 8 = 256 := by norm_num
    rw [Nat.shiftLeft_eq, h2, Nat.mul_comm]
  apply Nat.eq_of_testBit_eq
  intro j
  have key := Nat.testBit_mul_pow_two_add x h8 j
  norm_num at key
  rw [Nat.testBit_or, key]
  by_cases hj : j < 8
  · have hlow : ((256 : Nat) * x).testBit j = false := by
      rw [hshift]
      simp [Nat.testBit_shiftLeft, Nat.not_le.mpr hj]
    simp [hlow, hj]
  · have hhigh : i.testBit j = false :=
      Nat.testBit_lt_two_pow (lt_of_lt_of_le h8 (Nat.pow_le_pow_right (by norm_num) (Nat.not_lt.mp hj)))
    have hup : ((256 : Nat) * x).testBit j = x.testBit (j - 8) := by
      rw [hshift]
      simp [Nat.testBit_shiftLeft, Nat.not_lt.mp hj]
    simp [hhigh, hup, hj]

theorem shiftLeft8_lor_eq_add (x i : Nat) (h : i < 256) :
    (x <<< 8) ||| i = x <<< 8 + i := by
  have h2 : (2 : Nat) ^ 8 = 256 := by norm_num
  rw [Nat.shiftLeft_eq, h2, Nat.mul_comm]
  exact mul_256_lor_eq_add x i h

theorem lor_FE00_eq_add (i : Nat) (h : i < 256) : 0xFE00 ||| i = 0xFE00 + i := by
  have h1 := shiftLeft8_lor_eq_add 0xFE i h
  have h2 : (0xFE : Nat) <<< 8 = 0xFE00 := by decide
  rw [h2] at h1
  exact h1

theorem apply_swap_ram_enable (c : Cartridge) (sw : Swap) :
    (c.apply_swap sw).ram_enable = c.ram_enable := by
  cases sw <;> rfl

set_option maxRecDepth 4096 in
theorem lcd_bits_aux : ∀ v < 256,
    ((((((((if v &&& 128 = 128 then 128 else 0) ||| if v &&& 64 = 64 then 64 else 0) |||
      if v &&& 32 = 32 then 32 else 0) ||| if v &&& 16 = 16 then 16 else 0) |||
      if v &&& 8 = 8 then 8 else 0) ||| if v &&& 4 = 4 then 4 else 0) |||
      if v &&& 2 = 2 then 2 else 0) ||| if v % 2 = 1 then 1 else 0) = v := by
  decide

/-! ## Claims -/

/-- Claim C10: for every byte v, `lcd_control_write(v)` followed by
`lcd_control_read()` returns exactly v — the eight LCDC bits decode and
re-encode without loss. -/
theorem lcd_control_roundtrip (s : GBVideo) (v : Nat) (h : v < 256) :
    (s.lcd_control_write v).lcd_control_read = v := by
  simp only [GBVideo.lcd_control_read, GBVideo.lcd_control_write]
  simp
  exact lcd_bits_aux v h

theorem lcd_control_roundtrip_witness :
    (GBVideo.new.lcd_control_write 0xA5).lcd_control_read = 0xA5 :=
  lcd_control_roundtrip GBVideo.new 0xA5 (by decide)

/-- Claim C5: the claim says the frequency-sweep direction is determined by
NR10 bit 3; the code (src/audio/square1.rs lines 139-145) reads bit 3 of the
volume-envelope register NR12 instead.  With NR10 = 0x18 (sweep step 1,
direction bit 3 SET, so the sweep must decrease) and NR12 = 0x00, the
generator is initialised with an increasing sweep; setting bit 3 of NR12
(leaving NR10 unchanged) flips it to decreasing. -/
theorem freq_sweep_dir_reads_envelope_reg :
    ((Square1Gen.new 128).init_signal ⟨0x18, 0, 0x00, 0, 0⟩).freq_sweep_step = 1
    ∧ ((Square1Gen.new 128).init_signal ⟨0x18, 0, 0x00, 0, 0⟩).freq_sweep_dir = AmpDirection.increase
    ∧ ((Square1Gen.new 128).init_signal ⟨0x18, 0, 0x08, 0, 0⟩).freq_sweep_dir = AmpDirection.decrease :=
  ⟨rfl, rfl, rfl⟩

/-- Claim C4 (counterexample): writing 0x0E to 0x0000 on an MBC1 cartridge
enables RAM (`(0x0E & 0xA) == 0xA` holds), although the low nibble of 0x0E is
not 0xA — the claim's predicate `v & 0x0F == 0x0A` is false there. -/
theorem mb1_ram_enable_counterexample :
    ((Cartridge.new (fun i => if i = 0x147 then 1 else 0)).write 0x0000 0x0E).ram_enable = true
    ∧ ¬ (0x0E &&& 0x0F = 0x0A) := by
  exact ⟨rfl, by decide⟩

/-- Claim C4 (amended): for an MBC1 cartridge, a write of v to
0x0000..=0x1FFF sets `ram_enable` exactly when `v & 0xA == 0xA` (bits 1 and 3
of v both set), per src/mem/cartridge/mod.rs line 65. -/
theorem mb1_ram_enable (c : Cartridge) (mb : MB1) (hmb : c.mem_bank = MBC.mbc1 mb)
    (loc v : Nat) (hloc : loc ≤ 0x1FFF) :
    ((c.write loc v).ram_enable = true ↔ v &&& 0xA = 0xA) := by
  unfold Cartridge.write
  rw [if_neg (by omega)]
  rw [hmb]
  simp only [if_pos hloc]
  rw [apply_swap_ram_enable]
  simp

theorem mb1_ram_enable_witness :
    ((Cartridge.new (fun i => if i = 0x147 then 1 else 0)).write 0x0000 0x0A).ram_enable = true :=
  (mb1_ram_enable (Cartridge.new (fun i => if i = 0x147 then 1 else 0)) MB1.new rfl
    0x0000 0x0A (by decide)).mpr (by decide)

/-- Claim C6: a window pixel is produced at screen column x of line y exactly
when the window is enabled and x ≥ WX−7 and y ≥ WY; when the window is
enabled but x < WX−7 the compositor takes the background pixel instead
(shown for the sprite-free case of `draw_line_gb`). -/
theorem window_pixel_condition (m : VideoMem) (wx x y : Nat) :
    ((((m.write_window_x wx).window_pixel x y).isSome = true) ↔
      (m.window_enable_flag = true ∧ wx - 7 ≤ x ∧ m.window_y ≤ y))
    ∧ (m.window_enable_flag = true → x < wx - 7 →
        (m.write_window_x wx).compose_pixel SpritePixel.nosprite x y =
          ((m.write_window_x wx).background_pixel x y).colour) := by
  constructor
  · constructor
    · intro hs
      by_contra hne
      have hn : (m.write_window_x wx).window_pixel x y = Option.none := by
        simp only [VideoMem.write_window_x, VideoMem.window_pixel]
        rw [if_neg]
        exact fun hc => hne (by simpa using hc)
      rw [hn] at hs
      simp at hs
    · intro hr
      simp only [VideoMem.write_window_x, VideoMem.window_pixel]
      rw [if_pos (by simpa using hr)]
      rfl
  · intro he hx
    have hnone : (m.write_window_x wx).window_pixel x y = Option.none := by
      simp only [VideoMem.write_window_x, VideoMem.window_pixel]
      rw [if_neg]
      intro hcon
      exact absurd hcon.2.1 (by omega)
    simp only [VideoMem.compose_pixel, hnone]
    cases hbg : (m.write_window_x wx).background_pixel x y <;> simp [BGPixel.colour]

theorem window_pixel_condition_witness :
    ((({ window_enable_flag := true, bg_priority_flag := true, window_x := 0, window_y := 0,
         scroll_x := 0, scroll_y := 0, window_map := fun _ _ => 1, bg_map := fun _ _ => 0,
         bg_colour := fun _ => Colour.zero } : VideoMem).write_window_x 10).window_pixel 5 0).isSome
      = true := by
  exact (window_pixel_condition
    { window_enable_flag := true, bg_priority_flag := true, window_x := 0, window_y := 0,
      scroll_x := 0, scroll_y := 0, window_map := fun _ _ => 1, bg_map := fun _ _ => 0,
      bg_colour := fun _ => Colour.zero } 10 5 0).1.mpr (by exact ⟨rfl, by decide, by decide⟩)

theorem read_wram (t : MemBus) (loc : Nat) (h1 : 0xC000 ≤ loc) (h2 : loc ≤ 0xDFFF) :
    t.read loc = t.ram (loc - 0xC000) := by
  unfold MemBus.read
  rw [if_neg (by omega), if_neg (by omega), if_neg (by omega), if_pos (by omega)]

theorem read_echo (t : MemBus) (loc : Nat) (h1 : 0xE000 ≤ loc) (h2 : loc ≤ 0xFDFF) :
    t.read loc = t.ram (loc - 0xE000) := by
  unfold MemBus.read
  rw [if_neg (by omega), if_neg (by omega), if_neg (by omega), if_neg (by omega),
    if_pos (by omega)]

/-- Claim C2: for every address L in 0xC000..0xDE00 and after every sequence
of bus writes, `read(L) = read(L + 0x2000)`: work RAM and its echo observe
identical bytes. -/
theorem wram_mirror (s : MemBus) (ws : List (Nat × Nat)) (L : Nat)
    (h1 : 0xC000 ≤ L) (h2 : L < 0xDE00) :
    (s.writeSeq ws).read L = (s.writeSeq ws).read (L + 0x2000) := by
  rw [read_wram _ L h1 (by omega), read_echo _ (L + 0x2000) (by omega) (by omega)]
  have harith : L - 0xC000 = L + 0x2000 - 0xE000 := by omega
  rw [harith]

theorem wram_mirror_witness :
    ((MemBus.new (fun _ => 0)).writeSeq [(0xC005, 0x7)]).read 0xC005 =
      ((MemBus.new (fun _ => 0)).writeSeq [(0xC005, 0x7)]).read 0xE005 :=
  wram_mirror (MemBus.new (fun _ => 0)) [(0xC005, 0x7)] 0xC005 (by decide) (by decide)

set_option maxRecDepth 100000 in
/-- Claim C7 (counterexample): 0xFEA0 is in no decoded range, yet reading it
does not return 0 regardless of prior writes to other addresses — after
writing 0xAB to 0xC000 the read of 0xFEA0 yields 0xAB (the bus default arm
returns work-RAM byte 0, src/mem/mod.rs line 126). -/
theorem undecoded_read_counterexample :
    ((MemBus.new (fun _ => 0)).write 0xC000 0xAB).read 0xFEA0 = 0xAB
    ∧ (0xAB : Nat) ≠ 0 := by
  exact ⟨by decide, by decide⟩

/-- Claim C7 (amended): for every bus address in no decoded range
(0xFEA0-0xFEFF, 0xFF01-0xFF03, 0xFF08-0xFF0E, 0xFF4C-0xFF7F), a write with
any value leaves the machine state unchanged, and a read returns the work-RAM
byte at offset 0 (the byte readable at 0xC000) — which is 0 only until that
byte is written. -/
theorem undecoded_access (s : MemBus) (loc : Nat)
    (h : (0xFEA0 ≤ loc ∧ loc ≤ 0xFEFF) ∨ (0xFF01 ≤ loc ∧ loc ≤ 0xFF03) ∨
         (0xFF08 ≤ loc ∧ loc ≤ 0xFF0E) ∨ (0xFF4C ≤ loc ∧ loc ≤ 0xFF7F)) :
    (∀ v, s.write loc v = s) ∧ s.read loc = s.ram 0 := by
  constructor
  · intro v
    unfold MemBus.write
    repeat rw [if_neg (by omega)]
  · unfold MemBus.read
    repeat rw [if_neg (by omega)]

theorem undecoded_access_witness :
    (MemBus.new (fun _ => 0)).read 0xFF77 = (MemBus.new (fun _ => 0)).ram 0 :=
  (undecoded_access (MemBus.new (fun _ => 0)) 0xFF77 (by omega)).2

theorem write_FF0F_flag (s : MemBus) (v : Nat) :
    (s.write 0xFF0F v).interrupt_flag = v &&& 0x1F := by
  unfold MemBus.write
  norm_num

theorem write_FF0F_enable (s : MemBus) (v : Nat) :
    (s.write 0xFF0F v).interrupt_enable = s.interrupt_enable := by
  unfold MemBus.write
  norm_num

theorem write_FFFF_flag (s : MemBus) (v : Nat) :
    (s.write 0xFFFF v).interrupt_flag = s.interrupt_flag := by
  unfold MemBus.write
  norm_num

theorem write_FFFF_enable (s : MemBus) (v : Nat) :
    (s.write 0xFFFF v).interrupt_enable = v &&& 0x1F := by
  unfold MemBus.write
  norm_num

theorem interrupt_regs_after (s : MemBus) (ws : List (Nat × Nat))
    (hws : ∀ w ∈ ws, w.1 = 0xFF0F ∨ w.1 = 0xFFFF) :
    (s.writeSeq ws).interrupt_flag =
      (match lastWrite 0xFF0F ws with
       | Option.some a => a &&& 0x1F
       | Option.none => s.interrupt_flag)
    ∧ (s.writeSeq ws).interrupt_enable =
      (match lastWrite 0xFFFF ws with
       | Option.some b => b &&& 0x1F
       | Option.none => s.interrupt_enable) := by
  induction ws generalizing s with
  | nil => exact ⟨rfl, rfl⟩
  | cons w ws ih =>
    have hw := hws w (List.mem_cons_self w ws)
    have hws' : ∀ w' ∈ ws, w'.1 = 0xFF0F ∨ w'.1 = 0xFFFF :=
      fun w' h' => hws w' (List.mem_cons_of_mem w h')
    have hstep : MemBus.writeSeq s (w :: ws) = MemBus.writeSeq (s.write w.1 w.2) ws := rfl
    rw [hstep]
    obtain ⟨ih1, ih2⟩ := ih (s.write w.1 w.2) hws'
    constructor
    · rw [ih1]
      cases hlw : lastWrite 0xFF0F ws with
      | some a => simp [lastWrite, hlw, Option.orElse]
      | none =>
        simp only [lastWrite, hlw, Option.orElse]
        rcases hw with hfl | hen
        · rw [hfl, if_pos rfl, write_FF0F_flag]
        · rw [hen, if_neg (by norm_num), write_FFFF_flag]
    · rw [ih2]
      cases hlw : lastWrite 0xFFFF ws with
      | some b => simp [lastWrite, hlw, Option.orElse]
      | none =>
        simp only [lastWrite, hlw, Option.orElse]
        rcases hw with hfl | hen
        · rw [hfl, if_neg (by norm_num), write_FF0F_enable]
        · rw [hen, if_pos rfl, write_FFFF_enable]

/-- Claim C1: after any sequence of bus writes to 0xFF0F and 0xFFFF,
`get_interrupts()` returns exactly (last value written to 0xFF0F) AND (last
value written to 0xFFFF) AND 0x1F. -/
theorem get_interrupts_last_writes (s : MemBus) (ws : List (Nat × Nat))
    (hws : ∀ w ∈ ws, w.1 = 0xFF0F ∨ w.1 = 0xFFFF) (a b : Nat)
    (ha : lastWrite 0xFF0F ws = Option.some a)
    (hb : lastWrite 0xFFFF ws = Option.some b) :
    (s.writeSeq ws).get_interrupts = a &&& b &&& 0x1F := by
  obtain ⟨h1, h2⟩ := interrupt_regs_after s ws hws
  rw [MemBus.get_interrupts, h1, h2, ha, hb]
  apply Nat.eq_of_testBit_eq
  intro j
  simp only [Nat.testBit_and]
  cases a.testBit j <;> cases b.testBit j <;> cases (0x1F : Nat).testBit j <;> rfl

theorem get_interrupts_last_writes_witness :
    ((MemBus.new (fun _ => 0)).writeSeq
        [(0xFFFF, 0x13), (0xFF0F, 0x01), (0xFF0F, 0xFF), (0xFFFF, 0x0F)]).get_interrupts
      = 0xFF &&& 0x0F &&& 0x1F :=
  get_interrupts_last_writes (MemBus.new (fun _ => 0))
    [(0xFFFF, 0x13), (0xFF0F, 0x01), (0xFF0F, 0xFF), (0xFFFF, 0x0F)]
    (by decide) 0xFF 0x0F (by decide) (by decide)

theorem phase_update_length (s : Square1Gen) : s.phase_update.length = s.length := rfl

theorem freq_sweep_update_length (s : Square1Gen) :
    s.freq_sweep_update.length = s.length := by
  unfold Square1Gen.freq_sweep_update Square1Gen.calc_freq
  split
  · cases s.freq_sweep_dir <;> rfl
  · rfl

theorem length_update_length (s : Square1Gen) :
    s.length_update.length = s.length.map (fun n => n - 1) := by
  unfold Square1Gen.length_update
  split
  · rename_i n heq
    rw [heq, Option.map_some']
    split_ifs with h
    · rfl
    · show s.length = _
      rw [heq]
      exact congrArg Option.some (by omega)
  · rename_i heq
    rw [heq]
    rfl

theorem amp_sweep_update_length (s : Square1Gen) :
    s.amp_sweep_update.length = s.length := by
  unfold Square1Gen.amp_sweep_update
  split
  · cases s.amp_sweep_dir <;> simp <;> split <;> rfl
  · rfl

theorem step_length (s : Square1Gen) :
    s.step.2.length = s.length.map (fun n => n - 1) := by
  show s.phase_update.freq_sweep_update.length_update.amp_sweep_update.length = _
  rw [amp_sweep_update_length, length_update_length, freq_sweep_update_length,
    phase_update_length]

theorem stateAt_length (s : Square1Gen) (n : Nat) :
    (s.stateAt n).length = s.length.map (fun m => m - n) := by
  induction n with
  | zero =>
    show s.length = s.length.map (fun m => m - 0)
    cases hl : s.length <;> simp
  | succ n ih =>
    show ((s.stateAt n).step.2).length = _
    rw [step_length, ih]
    cases hl : s.length with
    | none => rfl
    | some m =>
      simp only [Option.map_some']
      exact congrArg Option.some (by omega)

theorem phase_update_amp (s : Square1Gen) :
    s.phase_update.amplitude = s.amplitude ∧ s.phase_update.amp_counter = s.amp_counter ∧
    s.phase_update.amp_sweep_step = s.amp_sweep_step ∧
    s.phase_update.amp_sweep_dir = s.amp_sweep_dir :=
  ⟨rfl, rfl, rfl, rfl⟩

theorem freq_sweep_update_amp (s : Square1Gen) :
    s.freq_sweep_update.amplitude = s.amplitude ∧
    s.freq_sweep_update.amp_counter = s.amp_counter ∧
    s.freq_sweep_update.amp_sweep_step = s.amp_sweep_step ∧
    s.freq_sweep_update.amp_sweep_dir = s.amp_sweep_dir := by
  unfold Square1Gen.freq_sweep_update Square1Gen.calc_freq
  split
  · split <;> exact ⟨rfl, rfl, rfl, rfl⟩
  · exact ⟨rfl, rfl, rfl, rfl⟩

theorem length_update_amp (s : Square1Gen) :
    s.length_update.amplitude = s.amplitude ∧
    s.length_update.amp_counter = s.amp_counter ∧
    s.length_update.amp_sweep_step = s.amp_sweep_step ∧
    s.length_update.amp_sweep_dir = s.amp_sweep_dir := by
  unfold Square1Gen.length_update
  split
  · split_ifs <;> exact ⟨rfl, rfl, rfl, rfl⟩
  · exact ⟨rfl, rfl, rfl, rfl⟩

theorem amp_sweep_update_amp (s : Square1Gen) :
    s.amp_sweep_update.amp_sweep_step = s.amp_sweep_step ∧
    s.amp_sweep_update.amp_sweep_dir = s.amp_sweep_dir ∧
    s.amp_sweep_update.amp_counter =
      (if s.amp_counter + 1 ≥ s.amp_sweep_step then 0 else s.amp_counter + 1) ∧
    s.amp_sweep_update.amplitude =
      (if s.amp_counter + 1 ≥ s.amp_sweep_step then
        match s.amp_sweep_dir with
        | AmpDirection.increase => if s.amplitude < 15 then s.amplitude + 1 else s.amplitude
        | AmpDirection.decrease => if 0 < s.amplitude then s.amplitude - 1 else s.amplitude
        | AmpDirection.nodir => s.amplitude
       else s.amplitude) := by
  unfold Square1Gen.amp_sweep_update
  by_cases h : s.amp_counter + 1 ≥ s.amp_sweep_step
  · simp only [if_pos h]
    cases hdir : s.amp_sweep_dir with
    | increase =>
      by_cases h15 : s.amplitude < 15
      · simp only [if_pos h15]
        refine ⟨?_, ?_, ?_, ?_⟩ <;> trivial
      · simp only [if_neg h15]
        refine ⟨?_, ?_, ?_, ?_⟩ <;> trivial
    | decrease =>
      by_cases h0 : 0 < s.amplitude
      · simp only [if_pos h0]
        refine ⟨?_, ?_, ?_, ?_⟩ <;> trivial
      · simp only [if_neg h0]
        refine ⟨?_, ?_, ?_, ?_⟩ <;> trivial
    | nodir => refine ⟨?_, ?_, ?_, ?_⟩ <;> trivial
  · simp only [if_neg h]
    refine ⟨?_, ?_, ?_, ?_⟩ <;> trivial

theorem step_amp (s : Square1Gen) :
    s.step.2.amp_sweep_step = s.amp_sweep_step ∧
    s.step.2.amp_sweep_dir = s.amp_sweep_dir ∧
    s.step.2.amp_counter =
      (if s.amp_counter + 1 ≥ s.amp_sweep_step then 0 else s.amp_counter + 1) ∧
    s.step.2.amplitude =
      (if s.amp_counter + 1 ≥ s.amp_sweep_step then
        match s.amp_sweep_dir with
        | AmpDirection.increase => if s.amplitude < 15 then s.amplitude + 1 else s.amplitude
        | AmpDirection.decrease => if 0 < s.amplitude then s.amplitude - 1 else s.amplitude
        | AmpDirection.nodir => s.amplitude
       else s.amplitude) := by
  obtain ⟨f1, f2, f3, f4⟩ := freq_sweep_update_amp s.phase_update
  obtain ⟨l1, l2, l3, l4⟩ := length_update_amp s.phase_update.freq_sweep_update
  obtain ⟨a1, a2, a3, a4⟩ := amp_sweep_update_amp s.phase_update.freq_sweep_update.length_update
  refine ⟨?_, ?_, ?_, ?_⟩
  · show s.phase_update.freq_sweep_update.length_update.amp_sweep_update.amp_sweep_step = _
    rw [a1, l3, f3]
    rfl
  · show s.phase_update.freq_sweep_update.length_update.amp_sweep_update.amp_sweep_dir = _
    rw [a2, l4, f4]
    rfl
  · show s.phase_update.freq_sweep_update.length_update.amp_sweep_update.amp_counter = _
    rw [a3, l2, f2, l3, f3]
    rfl
  · show s.phase_update.freq_sweep_update.length_update.amp_sweep_update.amplitude = _
    rw [a4, l1, f1, l2, f2, l3, f3, l4, f4]
    rfl


/-- Claim C8: with the length flag NRx4[6] set and v = NRx1[5:0], every
sample at index strictly greater than `sample_rate * (64 - v) / 256` (counted
from the trigger) is 0; with NRx4[6] clear the length unit never forces the
output to 0 (each sample is the duty-phase output itself). -/
theorem square1_length_behavior (g : Square1Gen) (regs : Square1Regs) :
    (regs.freq_hi_reg &&& 0x40 ≠ 0 →
      ∀ n, (g.sample_rate * (64 - (regs.duty_length_reg &&& 0x3F))) / 256 < n →
        (g.init_signal regs).sampleAt n = 0)
    ∧ (regs.freq_hi_reg &&& 0x40 = 0 →
      ∀ n, (g.init_signal regs).sampleAt n =
        (if ((g.init_signal regs).stateAt n).phase < ((g.init_signal regs).stateAt n).duty_len
         then ((g.init_signal regs).stateAt n).amplitude else 0)) := by
  have hinit : (g.init_signal regs).length =
      (if regs.freq_hi_reg &&& 0x40 ≠ 0 then
        Option.some ((g.sample_rate * (64 - (regs.duty_length_reg &&& 0x3F))) / 256)
       else Option.none) := rfl
  constructor
  · intro hflag n hn
    have hlen : ((g.init_signal regs).stateAt n).length =
        Option.some ((g.sample_rate * (64 - (regs.duty_length_reg &&& 0x3F))) / 256 - n) := by
      rw [stateAt_length, hinit, if_pos hflag, Option.map_some']
    show Square1Gen.sample_out ((g.init_signal regs).stateAt n) = 0
    unfold Square1Gen.sample_out
    rw [hlen]
    have hz : (g.sample_rate * (64 - (regs.duty_length_reg &&& 0x3F))) / 256 - n = 0 := by omega
    rw [hz]
    simp
  · intro hflag n
    have hlen : ((g.init_signal regs).stateAt n).length = Option.none := by
      rw [stateAt_length, hinit, if_neg (by simp [hflag])]
      rfl
    show Square1Gen.sample_out ((g.init_signal regs).stateAt n) = _
    unfold Square1Gen.sample_out
    rw [hlen]
    simp

theorem square1_length_behavior_witness :
    ((Square1Gen.new 256).init_signal ⟨0, 0x3F, 0x00, 0, 0x40⟩).sampleAt 2 = 0 :=
  (square1_length_behavior (Square1Gen.new 256) ⟨0, 0x3F, 0x00, 0, 0x40⟩).1 (by decide) 2 (by decide)

theorem stateAt_amp_params (s : Square1Gen) (n : Nat) :
    (s.stateAt n).amp_sweep_step = s.amp_sweep_step ∧
    (s.stateAt n).amp_sweep_dir = s.amp_sweep_dir := by
  induction n with
  | zero => exact ⟨rfl, rfl⟩
  | succ n ih =>
    obtain ⟨i1, i2⟩ := ih
    obtain ⟨s1, s2, _, _⟩ := step_amp (s.stateAt n)
    exact ⟨by rw [show s.stateAt (n+1) = (s.stateAt n).step.2 from rfl, s1, i1],
           by rw [show s.stateAt (n+1) = (s.stateAt n).step.2 from rfl, s2, i2]⟩

theorem stateAt_amp_increase (s : Square1Gen) (k a : Nat) (hk : 0 < k)
    (hstep : s.amp_sweep_step = k) (hdir : s.amp_sweep_dir = AmpDirection.increase)
    (hcnt : s.amp_counter = 0) (hamp : s.amplitude = a) (ha : a ≤ 15) :
    ∀ n, (s.stateAt n).amplitude = min 15 (a + n / k) ∧
      (s.stateAt n).amp_counter = n % k := by
  intro n
  induction n with
  | zero =>
    constructor
    · show s.amplitude = _
      rw [hamp, Nat.zero_div, Nat.add_zero]
      exact (Nat.min_eq_right ha).symm
    · show s.amp_counter = _
      rw [hcnt, Nat.zero_mod]
  | succ n ih =>
    obtain ⟨ih1, ih2⟩ := ih
    obtain ⟨p1, p2⟩ := stateAt_amp_params s n
    obtain ⟨_, _, hc, ha'⟩ := step_amp (s.stateAt n)
    have hmod : n % k < k := Nat.mod_lt _ hk
    have hq := Nat.div_add_mod n k
    constructor
    · rw [show s.stateAt (n+1) = (s.stateAt n).step.2 from rfl, ha', ih1, ih2, p1, p2,
        hstep, hdir]
      dsimp only
      by_cases htrig : n % k + 1 ≥ k
      · rw [if_pos htrig]
        have hx : k * (n / k + 1) = k * (n / k) + k := by ring
        have hsplit : n + 1 = k * (n / k + 1) := by omega
        have hdiv : (n + 1) / k = n / k + 1 := by
          rw [hsplit]
          exact Nat.mul_div_cancel_left _ hk
        rw [hdiv]
        split_ifs with h15 <;> omega
      · rw [if_neg htrig]
        have hsplit : n + 1 = k * (n / k) + (n % k + 1) := by omega
        have hdiv : (n + 1) / k = n / k := by
          rw [hsplit, Nat.mul_add_div hk,
            Nat.div_eq_of_lt (show n % k + 1 < k by omega), Nat.add_zero]
        rw [hdiv]
    · rw [show s.stateAt (n+1) = (s.stateAt n).step.2 from rfl, hc, ih2, p1, hstep]
      by_cases htrig : n % k + 1 ≥ k
      · rw [if_pos htrig]
        have hx : k * (n / k + 1) = k * (n / k) + k := by ring
        have hsplit : n + 1 = k * (n / k + 1) := by omega
        rw [hsplit, Nat.mul_mod_right]
      · rw [if_neg htrig]
        have hsplit : n + 1 = k * (n / k) + (n % k + 1) := by omega
        rw [hsplit, Nat.mul_add_mod, Nat.mod_eq_of_lt (show n % k + 1 < k by omega)]

/-- Claim C9: channel 1 triggered with envelope direction = increase and a
nonzero envelope step of k samples has monotonically non-decreasing
amplitude, reaches 15 within 15k samples and stays there, and the amplitude
always stays within [0, 15]. -/
theorem square1_envelope_increase (g : Square1Gen) (regs : Square1Regs)
    (hdir : regs.vol_envelope_reg &&& 0x8 ≠ 0)
    (hk : 0 < g.sample_rate * (regs.vol_envelope_reg &&& 0x7) / 64) :
    (∀ n, ((g.init_signal regs).stateAt n).amplitude ≤
        ((g.init_signal regs).stateAt (n + 1)).amplitude)
    ∧ (∀ n, 15 * (g.sample_rate * (regs.vol_envelope_reg &&& 0x7) / 64) ≤ n →
        ((g.init_signal regs).stateAt n).amplitude = 15)
    ∧ (∀ n, ((g.init_signal regs).stateAt n).amplitude ≤ 15) := by
  have ha : (regs.vol_envelope_reg &&& 0xF0) >>> 4 ≤ 15 := by
    have h1 : regs.vol_envelope_reg &&& 0xF0 ≤ 0xF0 := Nat.and_le_right
    have h2 : (regs.vol_envelope_reg &&& 0xF0) >>> 4 = (regs.vol_envelope_reg &&& 0xF0) / 16 := by
      rw [Nat.shiftRight_eq_div_pow]
    omega
  have hstep : (g.init_signal regs).amp_sweep_step =
      g.sample_rate * (regs.vol_envelope_reg &&& 0x7) / 64 := rfl
  have hcnt : (g.init_signal regs).amp_counter = 0 := rfl
  have hamp : (g.init_signal regs).amplitude = (regs.vol_envelope_reg &&& 0xF0) >>> 4 := rfl
  have hdir' : (g.init_signal regs).amp_sweep_dir = AmpDirection.increase := by
    show (if g.sample_rate * (regs.vol_envelope_reg &&& 0x7) / 64 = 0 then AmpDirection.nodir
      else if regs.vol_envelope_reg &&& 0x8 ≠ 0 then AmpDirection.increase
      else AmpDirection.decrease) = _
    rw [if_neg (by omega), if_pos hdir]
  have key := stateAt_amp_increase (g.init_signal regs)
    (g.sample_rate * (regs.vol_envelope_reg &&& 0x7) / 64)
    ((regs.vol_envelope_reg &&& 0xF0) >>> 4) hk hstep hdir' hcnt hamp ha
  refine ⟨?_, ?_, ?_⟩
  · intro n
    obtain ⟨h1, _⟩ := key n
    obtain ⟨h2, _⟩ := key (n + 1)
    have hd : n / (g.sample_rate * (regs.vol_envelope_reg &&& 0x7) / 64) ≤
        (n + 1) / (g.sample_rate * (regs.vol_envelope_reg &&& 0x7) / 64) :=
      Nat.div_le_div_right (by omega)
    omega
  · intro n hn
    obtain ⟨h1, _⟩ := key n
    have h15 : 15 ≤ n / (g.sample_rate * (regs.vol_envelope_reg &&& 0x7) / 64) :=
      (Nat.le_div_iff_mul_le hk).mpr (by omega)
    omega
  · intro n
    obtain ⟨h1, _⟩ := key n
    omega

theorem square1_envelope_increase_witness :
    (((Square1Gen.new 64).init_signal ⟨0, 0, 0x09, 0, 0⟩).stateAt 15).amplitude = 15 :=
  (square1_envelope_increase (Square1Gen.new 64) ⟨0, 0, 0x09, 0, 0⟩
    (by decide) (by decide)).2.1 15 (by decide)

theorem video_write_oam (v : GBVideo) (d b : Nat) (h1 : 0xFE00 ≤ d) (h2 : d ≤ 0xFE9F) :
    v.write d b = { v with sprite_mem := Function.update v.sprite_mem (d - 0xFE00) b } := by
  unfold GBVideo.write
  rw [if_neg (by omega), if_neg (by omega), if_pos (by omega)]

theorem video_read_sprite_mem_irrelevant (v : GBVideo) (sm : Nat → Nat) (loc : Nat)
    (h : loc < 0xFE00 ∨ 0xFE9F < loc) :
    GBVideo.read { v with sprite_mem := sm } loc = v.read loc := by
  unfold GBVideo.read
  by_cases c1 : 0x8000 ≤ loc ∧ loc ≤ 0x97FF
  · rw [if_pos c1, if_pos c1]
  · rw [if_neg c1, if_neg c1]
    by_cases c2 : 0x9800 ≤ loc ∧ loc ≤ 0x9FFF
    · rw [if_pos c2, if_pos c2]
    · rw [if_neg c2, if_neg c2]
      by_cases c3 : 0xFE00 ≤ loc ∧ loc ≤ 0xFE9F
      · exact absurd c3 (by omega)
      · rw [if_neg c3, if_neg c3]
        rfl

theorem read_sprite_mem_irrelevant (s : MemBus) (sm : Nat → Nat) (loc : Nat)
    (h : loc < 0xFE00 ∨ 0xFE9F < loc) :
    MemBus.read { s with video_device := { s.video_device with sprite_mem := sm } } loc
      = s.read loc := by
  unfold MemBus.read
  by_cases b1 : loc ≤ 0x7FFF
  · rw [if_pos b1, if_pos b1]
  · rw [if_neg b1, if_neg b1]
    by_cases b2 : 0x8000 ≤ loc ∧ loc ≤ 0x9FFF
    · rw [if_pos b2, if_pos b2]
      exact video_read_sprite_mem_irrelevant s.video_device sm loc h
    · rw [if_neg b2, if_neg b2]
      by_cases b3 : 0xA000 ≤ loc ∧ loc ≤ 0xBFFF
      · rw [if_pos b3, if_pos b3]
      · rw [if_neg b3, if_neg b3]
        by_cases b4 : 0xC000 ≤ loc ∧ loc ≤ 0xDFFF
        · rw [if_pos b4, if_pos b4]
        · rw [if_neg b4, if_neg b4]
          by_cases b5 : 0xE000 ≤ loc ∧ loc ≤ 0xFDFF
          · rw [if_pos b5, if_pos b5]
          · rw [if_neg b5, if_neg b5]
            by_cases b6 : 0xFE00 ≤ loc ∧ loc ≤ 0xFE9F
            · exact absurd b6 (by omega)
            · rw [if_neg b6, if_neg b6]
              by_cases b7 : loc = 0xFF00
              · rw [if_pos b7, if_pos b7]
                exact video_read_sprite_mem_irrelevant s.video_device sm loc h
              · rw [if_neg b7, if_neg b7]
                by_cases b8 : 0xFF04 ≤ loc ∧ loc ≤ 0xFF07
                · rw [if_pos b8, if_pos b8]
                · rw [if_neg b8, if_neg b8]
                  by_cases b9 : loc = 0xFF0F
                  · rw [if_pos b9, if_pos b9]
                  · rw [if_neg b9, if_neg b9]
                    by_cases b10 : 0xFF10 ≤ loc ∧ loc ≤ 0xFF3F
                    · rw [if_pos b10, if_pos b10]
                    · rw [if_neg b10, if_neg b10]
                      by_cases b11 : 0xFF40 ≤ loc ∧ loc ≤ 0xFF4B
                      · rw [if_pos b11, if_pos b11]
                        exact video_read_sprite_mem_irrelevant s.video_device sm loc h
                      · rw [if_neg b11, if_neg b11]

theorem read_oam (s : MemBus) (loc : Nat) (h1 : 0xFE00 ≤ loc) (h2 : loc ≤ 0xFE9F) :
    s.read loc = s.video_device.sprite_mem (loc - 0xFE00) := by
  unfold MemBus.read GBVideo.read
  rw [if_neg (by omega), if_neg (by omega), if_neg (by omega), if_neg (by omega),
    if_neg (by omega), if_pos (by omega)]
  rw [if_neg (by omega), if_neg (by omega), if_pos (by omega)]

theorem dma_fold_invariant (s : MemBus) (X : Nat) (hX : X ≤ 0xFF) :
    ∀ m, m ≤ 0xA0 →
    ∃ sm : Nat → Nat,
      ((List.range m).foldl
        (fun st lo_byte =>
          let src_addr := X <<< 8 ||| lo_byte
          let dest_addr := 0xFE00 ||| lo_byte
          let byte := st.read src_addr
          { st with video_device := st.video_device.write dest_addr byte }) s
        = { s with video_device := { s.video_device with sprite_mem := sm } })
      ∧ (∀ k, k < m → sm k = s.read (X <<< 8 + k))
      ∧ (∀ k, m ≤ k → sm k = s.video_device.sprite_mem k) := by
  intro m
  induction m with
  | zero =>
    intro _
    refine ⟨s.video_device.sprite_mem, rfl, ?_, ?_⟩
    · intro k hk
      omega
    · intro k _
      rfl
  | succ m ih =>
    intro hm
    obtain ⟨sm, heq, hlt, hge⟩ := ih (by omega)
    have hX8 : X <<< 8 = X * 256 := by
      rw [Nat.shiftLeft_eq]
    have hm256 : m < 256 := by omega
    have hsrc : X <<< 8 ||| m = X <<< 8 + m := shiftLeft8_lor_eq_add X m hm256
    have hdst : (0xFE00 : Nat) ||| m = 0xFE00 + m := lor_FE00_eq_add m hm256
    have hbyte :
        MemBus.read { s with video_device := { s.video_device with sprite_mem := sm } }
          (X <<< 8 + m) = s.read (X <<< 8 + m) := by
      by_cases hoam : 0xFE00 ≤ X * 256 + m ∧ X * 256 + m ≤ 0xFE9F
      · have hXfe : X * 256 = 0xFE00 := by omega
        have haddr : X <<< 8 + m = 0xFE00 + m := by omega
        rw [haddr, read_oam _ _ (by omega) (by omega), read_oam _ _ (by omega) (by omega)]
        show sm (0xFE00 + m - 0xFE00) = s.video_device.sprite_mem (0xFE00 + m - 0xFE00)
        have hsub : 0xFE00 + m - 0xFE00 = m := by omega
        rw [hsub]
        exact hge m (Nat.le_refl m)
      · exact read_sprite_mem_irrelevant s sm (X <<< 8 + m) (by omega)
    refine ⟨Function.update sm m (s.read (X <<< 8 + m)), ?_, ?_, ?_⟩
    · rw [List.range_succ, List.foldl_append, heq]
      simp only [List.foldl_cons, List.foldl_nil]
      rw [hsrc, hdst, hbyte, video_write_oam _ _ _ (by omega) (by omega)]
      have hsub : 0xFE00 + m - 0xFE00 = m := by omega
      rw [hsub]
    · intro k hk
      by_cases hkm : k = m
      · rw [hkm, Function.update_same]
      · rw [Function.update_noteq hkm]
        exact hlt k (by omega)
    · intro k hk
      rw [Function.update_noteq (by omega)]
      exact hge k (by omega)

/-- Claim C3: after writing X to 0xFF46, for every i in 0..=0x9F the OAM byte
at 0xFE00+i equals the value that a bus read of (X<<8)+i returned just prior
to the DMA: the 160 source bytes go through the bus's own address decoding. -/
theorem dma_copies_oam (s : MemBus) (X : Nat) (hX : X ≤ 0xFF) (i : Nat) (hi : i ≤ 0x9F) :
    (s.write 0xFF46 X).read (0xFE00 + i) = s.read (X <<< 8 + i) := by
  have hw : s.write 0xFF46 X = s.dma X := by
    unfold MemBus.write
    norm_num
  have hdma : s.dma X =
      (List.range 0xA0).foldl
        (fun st lo_byte =>
          let src_addr := X <<< 8 ||| lo_byte
          let dest_addr := 0xFE00 ||| lo_byte
          let byte := st.read src_addr
          { st with video_device := st.video_device.write dest_addr byte }) s := rfl
  obtain ⟨sm, heq, hlt, hge⟩ := dma_fold_invariant s X hX 0xA0 (Nat.le_refl 0xA0)
  rw [hw, hdma, heq, read_oam _ _ (by omega) (by omega)]
  show sm (0xFE00 + i - 0xFE00) = s.read (X <<< 8 + i)
  have hsub : 0xFE00 + i - 0xFE00 = i := by omega
  rw [hsub]
  exact hlt i (by omega)

theorem dma_copies_oam_witness :
    ((MemBus.new (fun _ => 0)).write 0xFF46 0xC0).read 0xFE00 =
      (MemBus.new (fun _ => 0)).read (0xC0 <<< 8 + 0) :=
  dma_copies_oam (MemBus.new (fun _ => 0)) 0xC0 (by decide) 0 (by decide)
